import Mathlib

/-
Verification of the sandboxed-api contrib bindings (LibRaw example/utils and the
uriparser test driver) against their natural-language specification.

The development shallow-embeds the three C++ source files:
  * contrib/libraw/utils/utils_libraw.cc   (the "utils" LibRaw facade)
  * contrib/libraw/example/main.cc         (the example raw2text CLI driver)
  * contrib/uriparser/test/test_uriparser.cc (the uriparser test driver and its
    literal TestData table)

absl::Status values are embedded as the inductive FStatus; machine integers are
Nat/Int with explicit reduction modulo 2^32 where C unsigned conversions occur;
remote (sandboxee) memory is embedded as a partial map from addresses to nodes.
-/

namespace USpec

/-! ## absl::Status embedding and the LibRaw facade operations -/

/-- Embedding of the absl::Status outcomes the facades produce: success,
an UnavailableError carrying a message, or a SAPI transport/init failure. -/
inductive FStatus
| ok
| unavailable (msg : String)
| transportErr
deriving DecidableEq, Repr

/-- Whether an embedded status is success (absl::Status::ok()). -/
def FStatus.isOk : FStatus → Bool
| FStatus.ok => true
| _ => false

/-- LibRaw::OpenFile from utils_libraw.cc (lines 36-54): checks the stored init
status, issues libraw_open_file, and converts a non-LIBRAW_SUCCESS (non-zero)
return code to UnavailableError(std::to_string(error_code)).
`transportOk` abstracts whether the SAPI remote call itself succeeded. -/
def utilsOpenFile (init : FStatus) (transportOk : Bool) (errorCode : Int) : FStatus :=
  if init.isOk = false then init
  else if transportOk = false then FStatus.transportErr
  else if errorCode ≠ 0 then FStatus.unavailable (toString errorCode)
  else FStatus.ok

/-- LibRaw::Unpack from utils_libraw.cc (lines 56-69): same conversion policy as
utilsOpenFile, message std::to_string(error_code). -/
def utilsUnpack (init : FStatus) (transportOk : Bool) (errorCode : Int) : FStatus :=
  if init.isOk = false then init
  else if transportOk = false then FStatus.transportErr
  else if errorCode ≠ 0 then FStatus.unavailable (toString errorCode)
  else FStatus.ok

/-- LibRaw::COLOR from utils_libraw.cc (lines 80-91): returns the integer that
libraw_COLOR produced as a StatusOr success value; the value is a color/channel
index and is not interpreted as an error code. -/
def utilsCOLOR (init : FStatus) (transportOk : Bool) (libValue : Int) :
    Except FStatus Int :=
  if init.isOk = false then Except.error init
  else if transportOk = false then Except.error FStatus.transportErr
  else Except.ok libValue

/-- LibRaw::Unpack from example/main.cc (lines 109-122): converts a non-zero
return code to UnavailableError with the fixed message "error" (the original
code is not part of the failure). -/
def exampleUnpack (init : FStatus) (transportOk : Bool) (errorCode : Int) : FStatus :=
  if init.isOk = false then init
  else if transportOk = false then FStatus.transportErr
  else if errorCode ≠ 0 then FStatus.unavailable "error"
  else FStatus.ok

/-- LibRaw::COLOR from example/main.cc (lines 124-137): _COLOR stores the call
result into the `color` member only when the remote call succeeds; COLOR then
returns the member regardless of the status, so a failure leaves the previous
(possibly uninitialized) value to be returned as if it were a result. -/
def exampleCOLOR (init : FStatus) (transportOk : Bool) (libValue : Int)
    (prevColor : Int) : Int :=
  if init.isOk = false then prevColor
  else if transportOk = false then prevColor
  else libValue

/-! ## The example raw2text CLI driver (example/main.cc, main, lines 154-298)

The driver is embedded as a function from the parsed command line (Args) and the
behaviour of the sandbox/library collaborators (RawEnv) to the observables the
claims speak about (MainResult): the process exit code, whether the usage text /
"Unsupported file data..." text was printed, whether the channel validation
check fired, the ordered list of remote library calls issued, the number of
libraw_close invocations, and the list of indices used to read the per-channel
black-level array cblack. The numeric cell output of the dump is not an
observable of any claim and is abstracted away. -/

/-- subtract_bl from example/main.cc: `val > (unsigned)bl ? val - (unsigned)bl : 0`.
The C cast int -> unsigned reduces `bl` modulo 2^32; `val` is already unsigned. -/
def subtract_bl (val : Nat) (bl : Int) : Nat :=
  let blU : Nat := (bl % (2 ^ 32 : Int)).toNat
  if blU < val then val - blU else 0

/-- C conversion of a (possibly negative) int to unsigned: reduction mod 2^32. -/
def u32 (i : Int) : Nat := (i % (2 ^ 32 : Int)).toNat

/-- The remote libraw entry points the driver can invoke through the sandbox,
in the order main.cc issues them: libraw_init (constructor), libraw_open_file,
libraw_unpack, libraw_COLOR(row, col). -/
inductive RemoteCall
| librawInit
| openFile
| unpack
| colorCall (row col : Int)
deriving DecidableEq, Repr

/-- The command line of the driver after atoi: argc and the five numeric
arguments av[2..6] (input-file name handling is not numeric and not observable
in any claim). -/
structure Args where
  ac : Nat
  col : Int
  row : Int
  channelArg : Int
  widthArg : Int
  heightArg : Int

/-- Behaviour of the sandbox and of the wrapped libraw library during one run:
whether sandbox.Init() succeeds, whether libraw_init succeeds (binding the
remote data struct), transport success and return code of libraw_open_file, the
image fields observed after the open/unpack transfers (idata.colors,
rawdata.raw_image / color4_image / color3_image being non-null,
sizes.raw_width/raw_height), the unpack outcome, and the value
libraw_COLOR(row, col) returns. -/
structure RawEnv where
  sandboxInitOk : Bool
  initOk : Bool
  openTransportOk : Bool
  openCode : Int
  colors : Int
  unpackTransportOk : Bool
  unpackCode : Int
  rawImage : Bool
  color4Image : Bool
  color3Image : Bool
  rawWidth : Int
  rawHeight : Int
  colorAt : Int → Int → Int

/-- Observables of one driver run. -/
structure MainResult where
  exitCode : Nat
  usagePrinted : Bool
  channelRejected : Bool
  unsupportedPrinted : Bool
  calls : List RemoteCall
  closeCalls : Nat
  cblackIndices : List Int
deriving DecidableEq

/-- main.cc line 164-166: CHANNEL defaults to 0 unless ac > 4. -/
def effChannel (args : Args) : Int := if 4 < args.ac then args.channelArg else 0

/-- main.cc line 167-169: width defaults to 16 unless ac > 5. -/
def effWidth (args : Args) : Int := if 5 < args.ac then args.widthArg else 16

/-- main.cc line 170-172: height defaults to 4 unless ac > 6. -/
def effHeight (args : Args) : Int := if 6 < args.ac then args.heightArg else 4

/-- main.cc line 235: the channel validation condition
`(colors == 1 && channel > 0) || (channel > 3)`. -/
def channelInvalid (colors channel : Int) : Bool :=
  decide ((colors = 1 ∧ 0 < channel) ∨ 3 < channel)

/-- The int values a C for-loop `for (v = start; v < start + len && ...; v++)`
ranges over before the second bound is considered: start, start+1, ... -/
def intRange (start : Int) (len : Int) : List Int :=
  (List.range len.toNat).map (fun i => start + i)

/-- Outcome of an early exit(1)/EXIT_FAILURE on bad arguments (main.cc lines
158-161 and 173-176): usage printed, no remote call ever issued. -/
def mrUsage : MainResult :=
  { exitCode := 1, usagePrinted := true, channelRejected := false,
    unsupportedPrinted := false, calls := [], closeCalls := 0, cblackIndices := [] }

/-- Outcome when sandbox.Init() fails (main.cc lines 180-183). -/
def mrSandboxFail : MainResult :=
  { exitCode := 1, usagePrinted := false, channelRejected := false,
    unsupportedPrinted := false, calls := [], closeCalls := 0, cblackIndices := [] }

/-- Outcome when libraw_init fails: the constructor issued the init call, and
OpenFile returns the stored init failure without issuing libraw_open_file
(main.cc lines 82-90, 139-141, 211-216). -/
def mrInitFail : MainResult :=
  { exitCode := 1, usagePrinted := false, channelRejected := false,
    unsupportedPrinted := false, calls := [RemoteCall.librawInit], closeCalls := 0,
    cblackIndices := [] }

/-- Outcome when libraw_open_file fails, either at the transport or with a
non-zero return code (main.cc lines 92-107, 211-216). -/
def mrOpenFail : MainResult :=
  { exitCode := 1, usagePrinted := false, channelRejected := false,
    unsupportedPrinted := false,
    calls := [RemoteCall.librawInit, RemoteCall.openFile], closeCalls := 0,
    cblackIndices := [] }

/-- Outcome of the channel validation exit(1) (main.cc lines 235-239): it runs
after libraw_init and libraw_open_file but before libraw_unpack and before any
libraw_COLOR call, and the channel value is not an argument of any issued call. -/
def mrChannelReject : MainResult :=
  { exitCode := 1, usagePrinted := false, channelRejected := true,
    unsupportedPrinted := false,
    calls := [RemoteCall.librawInit, RemoteCall.openFile], closeCalls := 0,
    cblackIndices := [] }

/-- The dump stage of main.cc (lines 240-297): lr.Unpack() is invoked with its
status discarded, then one of the three layout branches (raw_image /
color4_image / color3_image) or the "Unsupported file data..." message, and
finally `return EXIT_SUCCESS`. No branch calls libraw_close (the only such call,
line 296, is commented out, and the driver's local LibRaw class has no
destructor), so closeCalls = 0 on every path. -/
def dumpStage (args : Args) (env : RawEnv) : MainResult :=
  let channel := effChannel args
  let rows := (intRange args.row (effHeight args)).filter
    (fun r => decide (r < env.rawHeight))
  let cols := (intRange args.col (effWidth args)).filter
    (fun c => decide (c < env.rawWidth))
  if env.rawImage then
    { exitCode := 0, usagePrinted := false, channelRejected := false,
      unsupportedPrinted := false,
      calls := [RemoteCall.librawInit, RemoteCall.openFile, RemoteCall.unpack] ++
        (if 1 < env.colors then
          rows.flatMap (fun r => (List.range 48).map
            (fun c => RemoteCall.colorCall r (Int.ofNat c)))
        else []),
      closeCalls := 0,
      cblackIndices := rows.flatMap (fun r => cols.filterMap (fun c =>
        let rc : Nat :=
          if 1 < env.colors then u32 (env.colorAt r (Int.tmod c 48)) else 0
        if rc = u32 channel then some channel else none)) }
  else if env.color4Image = true ∧ channel < 4 then
    { exitCode := 0, usagePrinted := false, channelRejected := false,
      unsupportedPrinted := false,
      calls := [RemoteCall.librawInit, RemoteCall.openFile, RemoteCall.unpack],
      closeCalls := 0,
      cblackIndices := rows.flatMap (fun _ => cols.map (fun _ => channel)) }
  else if env.color3Image = true ∧ channel < 3 then
    { exitCode := 0, usagePrinted := false, channelRejected := false,
      unsupportedPrinted := false,
      calls := [RemoteCall.librawInit, RemoteCall.openFile, RemoteCall.unpack],
      closeCalls := 0,
      cblackIndices := rows.flatMap (fun _ => cols.map (fun _ => channel)) }
  else
    { exitCode := 0, usagePrinted := false, channelRejected := false,
      unsupportedPrinted := true,
      calls := [RemoteCall.librawInit, RemoteCall.openFile, RemoteCall.unpack],
      closeCalls := 0,
      cblackIndices := [] }

/-- The whole driver run, main.cc lines 154-298, sequencing: argument checks,
sandbox.Init(), the LibRaw constructor (libraw_init), OpenFile, the channel
validation, and the dump stage. -/
def exampleMain (args : Args) (env : RawEnv) : MainResult :=
  if args.ac < 4 then mrUsage
  else if effWidth args < 1 ∨ effHeight args < 1 then mrUsage
  else if env.sandboxInitOk = false then mrSandboxFail
  else if env.initOk = false then mrInitFail
  else if env.openTransportOk = false ∨ env.openCode ≠ 0 then mrOpenFail
  else if channelInvalid env.colors (effChannel args) then mrChannelReject
  else dumpStage args env

/-- Precondition: the command line passes the two argument checks. -/
def argsOk (args : Args) : Prop :=
  4 ≤ args.ac ∧ 1 ≤ effWidth args ∧ 1 ≤ effHeight args

/-- Precondition: sandbox and libraw init succeed and libraw_open_file
returns LIBRAW_SUCCESS over a working transport. -/
def openSucceeds (env : RawEnv) : Prop :=
  env.sandboxInitOk = true ∧ env.initOk = true ∧ env.openTransportOk = true ∧
    env.openCode = 0

/-- Precondition: the run reaches the dump stage. -/
def reachesDump (args : Args) (env : RawEnv) : Prop :=
  argsOk args ∧ openSucceeds env ∧
    channelInvalid env.colors (effChannel args) = false

/-! ## Session lifetime of the utils LibRaw facade (utils_libraw.cc)

The constructor runs InitLibRaw, which binds the remote libraw_data_t struct
(SetRemote) exactly when libraw_init succeeds; the facade operations OpenFile,
Unpack, COLOR and RawData contain no libraw_close call and never rebind or
clear that remote pointer; the destructor (lines 28-32) calls libraw_close
exactly when the remote pointer is non-null. -/

/-- A facade operation invoked on a live utils LibRaw session, with the outcome
of its remote call. -/
inductive UtilsOp
| openFileOp (transportOk : Bool) (code : Int)
| unpackOp (transportOk : Bool) (code : Int)
| colorOp (transportOk : Bool) (value : Int)
| rawDataOp (transportOk : Bool)

/-- Number of libraw_close calls a facade operation performs: none of the four
operation bodies in utils_libraw.cc contains a libraw_close call. -/
def utilsOpCloseCalls : UtilsOp → Nat := fun _ => 0

/-- LibRaw::~LibRaw (utils_libraw.cc lines 28-32): libraw_close is called
exactly when sapi_libraw_data_t_.GetRemote() is non-null, which holds exactly
when libraw_init succeeded in the constructor (no operation changes it). -/
def utilsDestructorCloseCalls (remoteBound : Bool) : Nat :=
  if remoteBound then 1 else 0

/-- Total libraw_close calls over a whole utils session: the operations run (in
any order, with any failures), then the destructor runs at destruction. -/
def utilsSessionCloseCalls (initOk : Bool) (ops : List UtilsOp) : Nat :=
  (ops.map utilsOpCloseCalls).sum + utilsDestructorCloseCalls initOk

/-! ## Scoped cleanup in the uriparser tests (test_uriparser.cc)

Each TEST body parses a URI and immediately registers an absl::Cleanup that
calls uriFreeUriMembersA (e.g. lines 369-382); a failing gtest ASSERT returns
from the body early, skipping the remaining steps, but the cleanups already
registered still run at scope exit, in reverse registration order. -/

/-- One step of a test body after the parse: either a step guarded by an ASSERT
(which aborts the body when it fails) or the acquisition of a resource together
with registration of its cleanup. -/
inductive TestAction
| assertStep (ok : Bool)
| acquire (id : Nat)

/-- Runs a test body given the already-registered cleanups (most recent first);
returns the cleanups executed at scope exit, most recent first. -/
def runScoped : List TestAction → List Nat → List Nat
| [], cleanups => cleanups
| TestAction.assertStep true :: rest, cleanups => runScoped rest cleanups
| TestAction.assertStep false :: _, cleanups => cleanups
| TestAction.acquire i :: rest, cleanups => runScoped rest (i :: cleanups)

/-- Whether a body suffix acquires no further resource (it consists of
ASSERT-guarded steps only). -/
def assertOnly (l : List TestAction) : Bool :=
  l.all (fun a => match a with
    | TestAction.assertStep _ => true
    | TestAction.acquire _ => false)

/-! ## Remote chain traversal (test_uriparser.cc, TestPath lines 765-806 and
TestQueryElements lines 808-871)

A linked chain of nodes lives in sandboxee memory; the driver owns one handle,
and repeatedly transfers the node at the handle's current remote address and
rebinds the handle to the transferred node's `next` pointer. TestPath loops
while the remote address is non-null; TestQueryElements loops a fixed number of
times (the count returned by uriDissectQueryMallocA). Remote memory is embedded
as a partial map from addresses to nodes, address 0 being the null pointer. -/

/-- A node of a remote chain (a UriPathSegmentA or UriQueryListA record): its
payload text and the remote address of the next node (0 = null). -/
structure SegNode where
  text : String
  next : Nat
deriving DecidableEq

/-- The finite null-terminated chains in a remote heap: address `a` holds the
node list `ns`, each node stored at a non-null address and linked by `next`,
ending at the null address. -/
inductive IsChain (heap : Nat → Option SegNode) : Nat → List SegNode → Prop
| nil : IsChain heap 0 []
| cons {a : Nat} {n : SegNode} {ns : List SegNode} :
    a ≠ 0 → heap a = some n → IsChain heap n.next ns → IsChain heap a (n :: ns)

/-- The TestPath loop: while the bound remote address is non-null, transfer the
node at that address (None models a failed transfer) and rebind to its `next`.
`fuel` bounds the number of iterations the embedding may take; the C loop has
no such bound. -/
def walkChain (heap : Nat → Option SegNode) : Nat → Nat → Option (List SegNode)
| _, 0 => some []
| 0, _ + 1 => none
| fuel + 1, a + 1 =>
  match heap (a + 1) with
  | none => none
  | some n => (walkChain heap fuel n.next).map (fun ns => n :: ns)

/-- The TestQueryElements loop: transfer and rebind `count` times, returning the
visited nodes and the remote address the handle holds after the last rebind. -/
def walkCount (heap : Nat → Option SegNode) : Nat → Nat → Option (List SegNode × Nat)
| 0, addr => some ([], addr)
| c + 1, addr =>
  match heap addr with
  | none => none
  | some n => (walkCount heap c n.next).map (fun p => (n :: p.1, p.2))

/-- A concrete two-node remote heap used to witness the traversal theorems. -/
def heapTwo : Nat → Option SegNode := fun a =>
  if a = 5 then some (SegNode.mk "google" 9)
  else if a = 9 then some (SegNode.mk "sandboxed-api" 0)
  else none

/-! ## The literal TestData table of test_uriparser.cc (lines 30-318)

One record per test variant; fields omitted by the C++ designated initializers
default to the empty string / empty list, exactly as in the source. -/

/-- One row of the TestData table. -/
structure TestVariant where
  test : String := ""
  uri : String := ""
  uriescaped : String := ""
  scheme : String := ""
  userinfo : String := ""
  hosttext : String := ""
  hostip : String := ""
  porttext : String := ""
  query : String := ""
  fragment : String := ""
  normalized : String := ""
  addBaseExample : String := ""
  removeBaseExample : String := ""
  pathElements : List String := []
  queryElements : List (String × String) := []
deriving DecidableEq

/-- The TestData array, in source order. -/
def testData : List TestVariant :=
  [ { test := "http://www.example.com/",
      uri := "http://www.example.com/",
      uriescaped := "http%3A%2F%2Fwww.example.com%2F",
      scheme := "http", userinfo := "", hosttext := "www.example.com",
      hostip := "", porttext := "", query := "", fragment := "",
      normalized := "http://www.example.com/",
      addBaseExample := "http://www.example.com/",
      removeBaseExample := "./" },
    { test := "https://github.com/google/sandboxed-api/",
      uri := "https://github.com/google/sandboxed-api/",
      uriescaped := "https%3A%2F%2Fgithub.com%2Fgoogle%2Fsandboxed-api%2F",
      scheme := "https", userinfo := "", hosttext := "github.com",
      hostip := "", porttext := "", query := "", fragment := "",
      normalized := "https://github.com/google/sandboxed-api/",
      addBaseExample := "https://github.com/google/sandboxed-api/",
      removeBaseExample := "https://github.com/google/sandboxed-api/",
      pathElements := ["google", "sandboxed-api"] },
    { test := "mailto:test@example.com",
      uri := "mailto:test@example.com",
      uriescaped := "mailto%3Atest%40example.com",
      scheme := "mailto", userinfo := "", hosttext := "",
      hostip := "", porttext := "", query := "", fragment := "",
      normalized := "mailto:test@example.com",
      addBaseExample := "mailto:test@example.com",
      removeBaseExample := "mailto:test@example.com",
      pathElements := ["test@example.com"] },
    { test := "file:///bin/bash",
      uri := "file:///bin/bash",
      uriescaped := "file%3A%2F%2F%2Fbin%2Fbash",
      scheme := "file", userinfo := "", hosttext := "",
      hostip := "", porttext := "", query := "", fragment := "",
      normalized := "file:///bin/bash",
      addBaseExample := "file:///bin/bash",
      removeBaseExample := "file:///bin/bash",
      pathElements := ["bin", "bash"] },
    { test := "http://www.example.com/name%20with%20spaces/",
      uri := "http://www.example.com/name%20with%20spaces/",
      uriescaped := "http%3A%2F%2Fwww.example.com%2Fname%2520with%2520spaces%2F",
      scheme := "http", userinfo := "", hosttext := "www.example.com",
      hostip := "", porttext := "", query := "", fragment := "",
      normalized := "http://www.example.com/name%20with%20spaces/",
      addBaseExample := "http://www.example.com/name%20with%20spaces/",
      removeBaseExample := "name%20with%20spaces/",
      pathElements := ["name%20with%20spaces"] },
    { test := "http://abcdefg@localhost/",
      uri := "http://abcdefg@localhost/",
      uriescaped := "http%3A%2F%2Fabcdefg%40localhost%2F",
      scheme := "http", userinfo := "abcdefg", hosttext := "localhost",
      hostip := "", porttext := "", query := "", fragment := "",
      normalized := "http://abcdefg@localhost/",
      addBaseExample := "http://abcdefg@localhost/",
      removeBaseExample := "//abcdefg@localhost/" },
    { test := "https://localhost:123/",
      uri := "https://localhost:123/",
      uriescaped := "https%3A%2F%2Flocalhost%3A123%2F",
      scheme := "https", userinfo := "", hosttext := "localhost",
      hostip := "", porttext := "123", query := "", fragment := "",
      normalized := "https://localhost:123/",
      addBaseExample := "https://localhost:123/",
      removeBaseExample := "https://localhost:123/" },
    { test := "http://[::1]/",
      uri := "http://[0000:0000:0000:0000:0000:0000:0000:0001]/",
      uriescaped :=
        "http%3A%2F%2F%5B0000%3A0000%3A0000%3A0000%3A0000%3A0000%3A0000%3A0001%5D%2F",
      scheme := "http", userinfo := "", hosttext := "::1",
      hostip := "::1", porttext := "", query := "", fragment := "",
      normalized := "http://[0000:0000:0000:0000:0000:0000:0000:0001]/",
      addBaseExample := "http://[0000:0000:0000:0000:0000:0000:0000:0001]/",
      removeBaseExample := "//[0000:0000:0000:0000:0000:0000:0000:0001]/" },
    { test := "http://a/b/c/d;p?q",
      uri := "http://a/b/c/d;p?q",
      uriescaped := "http%3A%2F%2Fa%2Fb%2Fc%2Fd%3Bp%3Fq",
      scheme := "http", userinfo := "", hosttext := "a",
      hostip := "", porttext := "", query := "q", fragment := "",
      normalized := "http://a/b/c/d;p?q",
      addBaseExample := "http://a/b/c/d;p?q",
      removeBaseExample := "//a/b/c/d;p?q",
      pathElements := ["b", "c", "d;p"],
      queryElements := [("q", "")] },
    { test := "http://a/b/c/../d;p?q",
      uri := "http://a/b/c/../d;p?q",
      uriescaped := "http%3A%2F%2Fa%2Fb%2Fc%2F..%2Fd%3Bp%3Fq",
      scheme := "http", userinfo := "", hosttext := "a",
      hostip := "", porttext := "", query := "q", fragment := "",
      normalized := "http://a/b/d;p?q",
      addBaseExample := "http://a/b/d;p?q",
      removeBaseExample := "//a/b/c/../d;p?q",
      pathElements := ["b", "c", "..", "d;p"],
      queryElements := [("q", "")] },
    { test := "http://example.com/abc/def/",
      uri := "http://example.com/abc/def/",
      uriescaped := "http%3A%2F%2Fexample.com%2Fabc%2Fdef%2F",
      scheme := "http", userinfo := "", hosttext := "example.com",
      hostip := "", porttext := "", query := "", fragment := "",
      normalized := "http://example.com/abc/def/",
      addBaseExample := "http://example.com/abc/def/",
      removeBaseExample := "//example.com/abc/def/",
      pathElements := ["abc", "def"] },
    { test := "http://example.com/?abc",
      uri := "http://example.com/?abc",
      uriescaped := "http%3A%2F%2Fexample.com%2F%3Fabc",
      scheme := "http", userinfo := "", hosttext := "example.com",
      hostip := "", porttext := "", query := "abc", fragment := "",
      normalized := "http://example.com/?abc",
      addBaseExample := "http://example.com/?abc",
      removeBaseExample := "//example.com/?abc",
      queryElements := [("abc", "")] },
    { test := "http://[vA.123456]/",
      uri := "http://[vA.123456]/",
      uriescaped := "http%3A%2F%2F%5BvA.123456%5D%2F",
      scheme := "http", userinfo := "", hosttext := "vA.123456",
      hostip := "", porttext := "", query := "", fragment := "",
      normalized := "http://[va.123456]/",
      addBaseExample := "http://[vA.123456]/",
      removeBaseExample := "//[vA.123456]/" },
    { test := "http://8.8.8.8/",
      uri := "http://8.8.8.8/",
      uriescaped := "http%3A%2F%2F8.8.8.8%2F",
      scheme := "http", userinfo := "", hosttext := "8.8.8.8",
      hostip := "8.8.8.8", porttext := "", query := "", fragment := "",
      normalized := "http://8.8.8.8/",
      addBaseExample := "http://8.8.8.8/",
      removeBaseExample := "//8.8.8.8/" },
    { test := "http://www.example.com/?abc",
      uri := "http://www.example.com/?abc",
      uriescaped := "http%3A%2F%2Fwww.example.com%2F%3Fabc",
      scheme := "http", userinfo := "", hosttext := "www.example.com",
      hostip := "", porttext := "", query := "abc", fragment := "",
      normalized := "http://www.example.com/?abc",
      addBaseExample := "http://www.example.com/?abc",
      removeBaseExample := "./?abc",
      queryElements := [("abc", "")] },
    { test := "https://google.com?q=asd&x=y&zxc=asd",
      uri := "https://google.com?q=asd&x=y&zxc=asd",
      uriescaped := "https%3A%2F%2Fgoogle.com%3Fq%3Dasd%26x%3Dy%26zxc%3Dasd",
      scheme := "https", userinfo := "", hosttext := "google.com",
      hostip := "", porttext := "", query := "q=asd&x=y&zxc=asd", fragment := "",
      normalized := "https://google.com?q=asd&x=y&zxc=asd",
      addBaseExample := "https://google.com?q=asd&x=y&zxc=asd",
      removeBaseExample := "https://google.com?q=asd&x=y&zxc=asd",
      queryElements := [("q", "asd"), ("x", "y"), ("zxc", "asd")] },
    { test := "https://google.com?q=asd#newplace",
      uri := "https://google.com?q=asd#newplace",
      uriescaped := "https%3A%2F%2Fgoogle.com%3Fq%3Dasd%23newplace",
      scheme := "https", userinfo := "", hosttext := "google.com",
      hostip := "", porttext := "", query := "q=asd", fragment := "newplace",
      normalized := "https://google.com?q=asd#newplace",
      addBaseExample := "https://google.com?q=asd#newplace",
      removeBaseExample := "https://google.com?q=asd#newplace",
      queryElements := [("q", "asd")] } ]

/-! ## Host payload (TestHostIP, test_uriparser.cc lines 476-500)

The UriUriA record's hostText range and hostData.ip4/ip6 pointers are produced
by the wrapped uriparser library, which is not part of this repository; only the
test expectations over them are. The pointer population per test input is
therefore modelled from the spec and is checked below for consistency with the
TestData expectations: TestHostText passes with a non-empty tv.hosttext exactly
when hostText is populated, and TestHostIP renders a non-empty tv.hostip exactly
when one of ip4/ip6 is populated. -/

/-- Modelled from the spec: which test inputs make the library populate
hostData.ip4 (a four-octet IPv4 payload). Missing from src: the uriparser
parser itself. -/
def hostIp4 : String → Option (Nat × Nat × Nat × Nat)
| "http://8.8.8.8/" => some (8, 8, 8, 8)
| _ => none

/-- Modelled from the spec: which test inputs make the library populate
hostData.ip6 (a sixteen-byte IPv6 payload). Missing from src: the uriparser
parser itself. -/
def hostIp6 : String → Option (List Nat)
| "http://[::1]/" => some [0, 0, 0, 0, 0, 0, 0, 0, 0, 0, 0, 0, 0, 0, 0, 1]
| _ => none

/-- Dotted-quad rendering of an IPv4 payload, as inet_ntop(AF_INET) produces in
TestHostIP (line 492). -/
def renderIp4 : Nat × Nat × Nat × Nat → String
| (a, b, c, d) =>
  toString a ++ "." ++ toString b ++ "." ++ toString c ++ "." ++ toString d

/-- The textual host is populated for a row exactly when TestHostText expects a
non-empty host string for it. -/
def hostTextPopulated (tv : TestVariant) : Bool := tv.hosttext != ""

/-- An IP payload is populated for a row exactly when TestHostIP expects a
non-empty rendered IP string for it. -/
def ipPopulated (tv : TestVariant) : Bool := tv.hostip != ""

/-- How many of {textual host, IPv4 payload, IPv6 payload} are populated for a
row of the table. -/
def populatedCount (tv : TestVariant) : Nat :=
  (if hostTextPopulated tv then 1 else 0) +
    (if (hostIp4 tv.test).isSome then 1 else 0) +
    (if (hostIp6 tv.test).isSome then 1 else 0)

/-! ## Normalization (TestNormalize, test_uriparser.cc lines 571-602) -/

/-- Modelled from the spec: uriNormalizeSyntaxExA followed by uriToStringA, as a
lookup of the normalization outcomes the src test data records for each test
input. Missing from src: the uriparser normalization routine itself. -/
def uriNormalize (s : String) : Option String :=
  (testData.find? (fun tv => tv.test == s)).map (fun tv => tv.normalized)

/-- Modelled from the spec: standard dot-segment removal over a list of path
segments ("." is dropped, ".." drops the preceding segment). -/
def removeDotSegmentsAux (acc : List String) : List String → List String
| [] => acc.reverse
| seg :: rest =>
  if seg = "." then removeDotSegmentsAux acc rest
  else if seg = ".." then removeDotSegmentsAux acc.tail rest
  else removeDotSegmentsAux (seg :: acc) rest

/-- Dot-segment removal on a whole segment list. -/
def removeDotSegments (l : List String) : List String := removeDotSegmentsAux [] l

/-- ASCII lower-casing of one byte, as normalization case-folding performs. -/
def asciiLower (b : Nat) : Nat := if 65 ≤ b ∧ b ≤ 90 then b + 32 else b

/-- The byte sequence of an ASCII string. -/
def strBytes (s : String) : List Nat := s.data.map Char.toNat

/-! ## Escaping (TestUriEscaped, test_uriparser.cc lines 384-407)

uriEscapeA itself belongs to the wrapped library; it is modelled from the spec
as RFC 3986 percent-encoding over bytes: unreserved bytes pass through, space
becomes '+' (the test passes spaceToPlus = true), and every other byte becomes
'%' followed by two uppercase hex digits. The model is validated below against
all escaped literals of the TestData table. -/

/-- The RFC 3986 unreserved bytes: ALPHA, DIGIT, '-', '.', '_', '~'. -/
def isUnres (b : Nat) : Bool :=
  decide ((65 ≤ b ∧ b ≤ 90) ∨ (97 ≤ b ∧ b ≤ 122) ∨ (48 ≤ b ∧ b ≤ 57) ∨
    b = 45 ∨ b = 46 ∨ b = 95 ∨ b = 126)

/-- The uppercase hex digit byte for a value below 16. -/
def hexDigit (n : Nat) : Nat := if n < 10 then 48 + n else 55 + n

/-- Modelled from the spec: uriEscapeA on one byte (spaceToPlus = true, as the
test passes). Missing from src: the uriparser escaping routine itself. -/
def escapeByte (b : Nat) : List Nat :=
  if b = 32 then [43]
  else if isUnres b then [b]
  else [37, hexDigit (b / 16 % 16), hexDigit (b % 16)]

/-- Modelled from the spec: uriEscapeA over a byte sequence. -/
def escapeBytes (l : List Nat) : List Nat := l.flatMap escapeByte

/-- The value of a hex digit byte (either case), or none. -/
def fromHex (c : Nat) : Option Nat :=
  if 48 ≤ c ∧ c ≤ 57 then some (c - 48)
  else if 65 ≤ c ∧ c ≤ 70 then some (c - 55)
  else if 97 ≤ c ∧ c ≤ 102 then some (c - 87)
  else none

mutual

/-- Modelled from the spec: percent-decoding (with '+' decoded back to space,
matching the spaceToPlus escaping) of a byte sequence. -/
def unescapeBytes : List Nat → Option (List Nat)
| [] => some []
| b :: rest =>
  if b = 37 then unescapePct rest
  else (unescapeBytes rest).map (fun r => (if b = 43 then 32 else b) :: r)

/-- Percent-decoding after a '%' byte: two hex digits must follow. -/
def unescapePct : List Nat → Option (List Nat)
| h :: l :: rest =>
  match fromHex h, fromHex l, unescapeBytes rest with
  | some hv, some lv, some r => some ((16 * hv + lv) :: r)
  | _, _, _ => none
| _ => none

end

/-! ## Concrete runs used in counterexamples and witnesses -/

/-- A command line `prog file 0 0 <channel>` (ac = 5, so width and height keep
their defaults 16 and 4). -/
def argsCh (ch : Int) : Args :=
  { ac := 5, col := 0, row := 0, channelArg := ch, widthArg := 0, heightArg := 0 }

/-- A command line with too few arguments (ac = 2). -/
def argsBad : Args :=
  { ac := 2, col := 0, row := 0, channelArg := 0, widthArg := 0, heightArg := 0 }

/-- A run in which everything succeeds and the opened file exposes the
color4_image layout of a 1x1 multi-color image. -/
def envColor4 : RawEnv :=
  { sandboxInitOk := true, initOk := true, openTransportOk := true,
    openCode := 0, colors := 3, unpackTransportOk := true, unpackCode := 0,
    rawImage := false, color4Image := true, color3Image := false,
    rawWidth := 1, rawHeight := 1, colorAt := fun _ _ => 0 }

/-- The same run except that libraw_unpack returns a non-zero error code. -/
def envUnpackFail : RawEnv := { envColor4 with unpackCode := 5 }

/-! # Theorems -/

/-- C4: for all unsigned values v and black levels bl (both below 2^32),
subtract_bl returns v - bl when bl < v and 0 otherwise; in particular it
returns 0 whenever v ≤ bl, including the boundary case v = bl, and never
underflows unsigned arithmetic. -/
theorem C4_theorem : ∀ v b : Nat, v < 2 ^ 32 → b < 2 ^ 32 →
    (subtract_bl v (b : Int) = if b < v then v - b else 0) ∧
    (v ≤ b → subtract_bl v (b : Int) = 0) := by
  intro v b _ hb
  have hlt : ((b : Int)) < (2 ^ 32 : Int) := by exact_mod_cast hb
  have hmod : (((b : Int)) % (2 ^ 32 : Int)).toNat = b := by
    rw [Int.emod_eq_of_lt (Int.natCast_nonneg b) hlt]
    simp
  constructor
  · simp only [subtract_bl, hmod]
  · intro hle
    simp only [subtract_bl, hmod]
    rw [if_neg (by omega)]

/-- C4 witness: the boundary case 5 ≤ 5 yields 0, and 9 with black level 4
yields 9 - 4. -/
theorem C4_witness :
    subtract_bl 5 ((5 : Nat) : Int) = 0 ∧
    subtract_bl 9 ((4 : Nat) : Int) = if 4 < 9 then 9 - 4 else 0 :=
  ⟨(C4_theorem 5 5 (by decide) (by decide)).2 (by decide),
   (C4_theorem 9 4 (by decide) (by decide)).1⟩

/-- C1 counterexample: COLOR is one of the named facade operations, yet a
well-formed non-zero library return (here 2) is delivered as a StatusOr
success value, not surfaced as a structured failure — because for COLOR the
return is a color index, not an error code. This falsifies the claim that
every one of OpenFile/Unpack/COLOR surfaces non-zero returns as failures. -/
theorem C1_counterexample : utilsCOLOR FStatus.ok true 2 = Except.ok 2 := rfl

/-- C1 amended: OpenFile and Unpack surface a non-zero library return code as a
structured Unavailable failure, never success; the utils facade preserves the
original code in the failure message, while the example driver's Unpack
replaces it with the fixed message "error"; COLOR's library return is a value,
returned as success, and the example driver's COLOR even returns the stale
previous value when the remote call fails. -/
theorem C1_amended :
    (∀ ec : Int, ec ≠ 0 →
      utilsOpenFile FStatus.ok true ec = FStatus.unavailable (toString ec)) ∧
    (∀ ec : Int, ec ≠ 0 →
      utilsUnpack FStatus.ok true ec = FStatus.unavailable (toString ec)) ∧
    (∀ ec : Int, ec ≠ 0 →
      exampleUnpack FStatus.ok true ec = FStatus.unavailable "error") ∧
    (∀ v : Int, utilsCOLOR FStatus.ok true v = Except.ok v) ∧
    (∀ v p : Int, exampleCOLOR FStatus.ok true v p = v) := by
  refine ⟨?_, ?_, ?_, ?_, ?_⟩ <;> intros <;>
    simp_all [utilsOpenFile, utilsUnpack, exampleUnpack, utilsCOLOR,
      exampleCOLOR, FStatus.isOk]

/-- C1 witness: the amended statement at the concrete codes 2, -3 and 7 and the
concrete color values 3 and 1. -/
theorem C1_witness :
    utilsOpenFile FStatus.ok true 2 = FStatus.unavailable (toString (2 : Int)) ∧
    utilsUnpack FStatus.ok true (-3) = FStatus.unavailable (toString (-3 : Int)) ∧
    exampleUnpack FStatus.ok true 7 = FStatus.unavailable "error" ∧
    utilsCOLOR FStatus.ok true 3 = Except.ok 3 ∧
    exampleCOLOR FStatus.ok true 1 0 = 1 :=
  ⟨C1_amended.1 2 (by decide), C1_amended.2.1 (-3) (by decide),
   C1_amended.2.2.1 7 (by decide), C1_amended.2.2.2.1 3, C1_amended.2.2.2.2 1 0⟩

/-- Support: every dump-stage outcome carries exit code 0 (EXIT_SUCCESS),
whatever the unpack outcome and pixel layout. -/
theorem dumpStage_exitCode (args : Args) (env : RawEnv) :
    (dumpStage args env).exitCode = 0 := by
  simp only [dumpStage]
  repeat' split
  all_goals rfl

/-- Support: a run with good arguments, a working sandbox, successful init and
open, and a channel that passes the validation check reaches the dump stage. -/
theorem exampleMain_reaches (args : Args) (env : RawEnv)
    (h : reachesDump args env) : exampleMain args env = dumpStage args env := by
  obtain ⟨⟨hac, hw, hh⟩, ⟨hs, hi, ht, hoc⟩, hch⟩ := h
  unfold exampleMain
  rw [if_neg (by omega), if_neg (by omega), if_neg (by simp [hs]),
    if_neg (by simp [hi]), if_neg (by simp [ht, hoc]), if_neg (by simp [hch])]

/-- Support: a run with good arguments, a working sandbox, successful init and
open, and a channel failing the validation check ends at the rejection exit. -/
theorem exampleMain_channelReject (args : Args) (env : RawEnv)
    (hargs : argsOk args) (hopen : openSucceeds env)
    (hch : channelInvalid env.colors (effChannel args) = true) :
    exampleMain args env = mrChannelReject := by
  obtain ⟨hac, hw, hh⟩ := hargs
  obtain ⟨hs, hi, ht, hoc⟩ := hopen
  unfold exampleMain
  rw [if_neg (by omega), if_neg (by omega), if_neg (by simp [hs]),
    if_neg (by simp [hi]), if_neg (by simp [ht, hoc]), if_pos hch]

/-- C5 counterexample: a run whose libraw_unpack returns the non-zero code 5
exits with code 0, the same exit code as the fully successful run — the driver
discards the status returned by lr.Unpack (main.cc line 240), so the exit code on unpack
failure is not distinct from the success exit code. -/
theorem C5_counterexample :
    (exampleMain (argsCh 0) envUnpackFail).exitCode = 0 ∧
    (exampleMain (argsCh 0) envColor4).exitCode = 0 := ⟨rfl, rfl⟩

/-- C5 amended: the example CLI exits 1 on bad arguments (fewer than 3
positional arguments, or width/height below 1) and on a channel out of range;
its exit code on open failure (1) is distinct from the success exit code (0);
an unpack failure is ignored, so such a run continues and exits with the
success code 0; and when the opened file exposes none of the three supported
in-memory pixel layouts the driver prints the "Unsupported file data..." text
and exits 0, not an error status. -/
theorem C5_amended :
    (∀ args env, args.ac < 4 ∨ effWidth args < 1 ∨ effHeight args < 1 →
      exampleMain args env = mrUsage) ∧
    mrUsage.exitCode = 1 ∧ mrUsage.usagePrinted = true ∧
    (∀ args env, argsOk args → openSucceeds env →
      channelInvalid env.colors (effChannel args) = true →
      exampleMain args env = mrChannelReject) ∧
    mrChannelReject.exitCode = 1 ∧
    (∀ args env, argsOk args → env.sandboxInitOk = true → env.initOk = true →
      env.openTransportOk = false ∨ env.openCode ≠ 0 →
      exampleMain args env = mrOpenFail) ∧
    mrOpenFail.exitCode = 1 ∧
    (∀ args env, reachesDump args env → (exampleMain args env).exitCode = 0) ∧
    (∀ args env, reachesDump args env → env.rawImage = false →
      ¬(env.color4Image = true ∧ effChannel args < 4) →
      ¬(env.color3Image = true ∧ effChannel args < 3) →
      (exampleMain args env).unsupportedPrinted = true ∧
      (exampleMain args env).exitCode = 0) := by
  refine ⟨?_, rfl, rfl, ?_, rfl, ?_, rfl, ?_, ?_⟩
  · intro args env h
    unfold exampleMain
    by_cases hac : args.ac < 4
    · rw [if_pos hac]
    · rw [if_neg hac, if_pos (by tauto)]
  · exact fun args env h1 h2 h3 => exampleMain_channelReject args env h1 h2 h3
  · intro args env hargs hs hi hof
    obtain ⟨hac, hw, hh⟩ := hargs
    unfold exampleMain
    rw [if_neg (by omega), if_neg (by omega), if_neg (by simp [hs]),
      if_neg (by simp [hi]), if_pos hof]
  · intro args env h
    rw [exampleMain_reaches args env h]
    exact dumpStage_exitCode args env
  · intro args env h hraw h4 h3
    rw [exampleMain_reaches args env h]
    simp only [dumpStage]
    rw [if_neg (by simp [hraw]), if_neg h4, if_neg h3]
    exact ⟨rfl, rfl⟩

/-- C5 witness: the amended statement applied at a two-argument command line
(usage exit) and at the concrete unpack-failure run. -/
theorem C5_witness :
    exampleMain argsBad envColor4 = mrUsage ∧
    (exampleMain (argsCh 0) envUnpackFail).exitCode = 0 := by
  obtain ⟨h1, _, _, _, _, _, _, h8, _⟩ := C5_amended
  refine ⟨h1 argsBad envColor4 (Or.inl (by decide)), h8 (argsCh 0) envUnpackFail ?_⟩
  exact ⟨⟨by decide, by decide, by decide⟩, ⟨rfl, rfl, rfl, rfl⟩, by decide⟩

/-- C3 counterexample: the channel -1 lies outside the bound 0-3, yet the run
is not rejected by the validation check and completes with the success exit
code; moreover, when a channel (here 5) is rejected, the rejection happens
after remote calls (libraw_init, libraw_open_file) were already issued, not
before any remote call. -/
theorem C3_counterexample :
    (exampleMain (argsCh (-1)) envColor4).channelRejected = false ∧
    (exampleMain (argsCh (-1)) envColor4).exitCode = 0 ∧
    (exampleMain (argsCh 5) envColor4).channelRejected = true ∧
    (exampleMain (argsCh 5) envColor4).calls ≠ [] :=
  ⟨rfl, rfl, rfl, by decide⟩

/-- C3 amended: a channel greater than 3, or a positive non-zero channel when
the sensor data is single-color, makes the driver fail with the facade-level
validation exit (code 1); the check runs after the libraw_init and
libraw_open_file remote calls (it needs the opened file's color count) but
before libraw_unpack and before any libraw_COLOR call, and the channel value is
not an argument of any issued remote call; negative channels are not rejected
by the check. -/
theorem C3_amended :
    (∀ args env, argsOk args → openSucceeds env →
      channelInvalid env.colors (effChannel args) = true →
      exampleMain args env = mrChannelReject) ∧
    mrChannelReject.exitCode = 1 ∧
    mrChannelReject.channelRejected = true ∧
    mrChannelReject.calls = [RemoteCall.librawInit, RemoteCall.openFile] ∧
    (∀ colors ch : Int, ch < 0 → channelInvalid colors ch = false) := by
  refine ⟨fun args env h1 h2 h3 => exampleMain_channelReject args env h1 h2 h3,
    rfl, rfl, rfl, ?_⟩
  intro colors ch hch
  simp only [channelInvalid, decide_eq_false_iff_not]
  omega

/-- C3 witness: the amended statement at channel 5 (rejected) and at the
negative channel -2 (not rejected). -/
theorem C3_witness :
    exampleMain (argsCh 5) envColor4 = mrChannelReject ∧
    channelInvalid 3 (-2) = false := by
  refine ⟨C3_amended.1 (argsCh 5) envColor4 ⟨by decide, by decide, by decide⟩
    ⟨rfl, rfl, rfl, rfl⟩ (by decide), C3_amended.2.2.2.2 3 (-2) (by decide)⟩

/-- Support: the row/column loops of a 1x1 image visit exactly one pixel, so
the color4_image dump branch reads cblack exactly once, at the given index. -/
theorem dump_color4_single (x : Int) :
    ((intRange 0 4).filter (fun r => decide (r < (1 : Int)))).flatMap
      (fun _ => ((intRange 0 16).filter (fun c => decide (c < (1 : Int)))).map
        (fun _ => x)) = [x] := by
  have h1 : (intRange 0 4).filter (fun r => decide (r < (1 : Int))) = [0] := by
    decide
  have h2 : (intRange 0 16).filter (fun c => decide (c < (1 : Int))) = [0] := by
    decide
  rw [h1, h2]
  rfl

/-- C10: a negative channel passes the validation check for every color count
(the check only rejects channels above 3, or positive channels on single-color
data), and such a channel is then used as the index into the per-channel
black-level array cblack in the dump loops (here the color4_image branch of a
1x1 image, whose single pixel reads cblack at the negative index). -/
theorem C10_theorem : ∀ ch : Int, ch < 0 →
    (∀ colors : Int, channelInvalid colors ch = false) ∧
    (exampleMain (argsCh ch) envColor4).channelRejected = false ∧
    (exampleMain (argsCh ch) envColor4).cblackIndices = [ch] := by
  intro ch hch
  have hinv : ∀ colors : Int, channelInvalid colors ch = false := by
    intro colors
    simp only [channelInvalid, decide_eq_false_iff_not]
    omega
  have hr : reachesDump (argsCh ch) envColor4 :=
    ⟨⟨by norm_num [argsCh], by norm_num [effWidth, argsCh],
      by norm_num [effHeight, argsCh]⟩, ⟨rfl, rfl, rfl, rfl⟩, hinv 3⟩
  have he : exampleMain (argsCh ch) envColor4 = dumpStage (argsCh ch) envColor4 :=
    exampleMain_reaches _ _ hr
  have h4 : effChannel (argsCh ch) < 4 := by
    simp only [effChannel, argsCh]
    norm_num
    omega
  refine ⟨hinv, ?_, ?_⟩
  · rw [he]
    simp only [dumpStage]
    rw [if_neg (by simp [envColor4]), if_pos ⟨rfl, h4⟩]
  · rw [he]
    simp only [dumpStage]
    rw [if_neg (by simp [envColor4]), if_pos ⟨rfl, h4⟩]
    exact dump_color4_single ch

/-- C10 witness: channel -1 passes the check (even for single-color data) and
is used as the cblack index. -/
theorem C10_witness :
    channelInvalid 1 (-1) = false ∧
    (exampleMain (argsCh (-1)) envColor4).channelRejected = false ∧
    (exampleMain (argsCh (-1)) envColor4).cblackIndices = [-1] := by
  obtain ⟨h1, h2, h3⟩ := C10_theorem (-1) (by decide)
  exact ⟨h1 1, h2, h3⟩

/-- C2 counterexample: a fully successful run of the example driver (open
succeeded, dump completed, exit 0) performs zero libraw_close calls — the only
close call in main.cc (line 296) is commented out and the driver's local LibRaw
class has no destructor, so the opened session is destroyed without a matching
close. -/
theorem C2_counterexample :
    (exampleMain (argsCh 0) envColor4).closeCalls = 0 ∧
    (exampleMain (argsCh 0) envColor4).exitCode = 0 := ⟨rfl, rfl⟩

/-- Support: no utils facade operation performs a libraw_close call. -/
theorem utils_ops_close_sum (ops : List UtilsOp) :
    (ops.map utilsOpCloseCalls).sum = 0 := by
  induction ops with
  | nil => rfl
  | cons a t ih => simp [utilsOpCloseCalls, ih]

/-- Support: a test-body suffix made of ASSERT-guarded steps only never changes
the set of registered cleanups, whether or not some ASSERT fails. -/
theorem runScoped_assertOnly (later : List TestAction) :
    ∀ cleanups : List Nat, assertOnly later = true →
      runScoped later cleanups = cleanups := by
  induction later with
  | nil => intro cl _; rfl
  | cons a t ih =>
    intro cl h
    cases a with
    | assertStep ok =>
      have ht : assertOnly t = true := by simpa [assertOnly] using h
      cases ok
      · rfl
      · simpa [runScoped] using ih cl ht
    | acquire i => simp [assertOnly] at h

/-- C2 amended: in the utils LibRaw facade, a session whose libraw_init
succeeded performs exactly one libraw_close (in the destructor) whatever
operations run and however they fail; in the uriparser tests, the
uriFreeUriMembersA cleanup registered right after a successful parse runs
exactly once at scope exit, whatever ASSERT-guarded steps follow and whether
or not they fail. The example driver (see the counterexample) does not satisfy
this: it never closes its libraw session. -/
theorem C2_amended :
    (∀ ops : List UtilsOp, utilsSessionCloseCalls true ops = 1) ∧
    (∀ later : List TestAction, assertOnly later = true →
      runScoped (TestAction.acquire 0 :: later) [] = [0]) := by
  constructor
  · intro ops
    simp [utilsSessionCloseCalls, utils_ops_close_sum, utilsDestructorCloseCalls]
  · intro later h
    have hstep : runScoped (TestAction.acquire 0 :: later) [] =
        runScoped later [0] := rfl
    rw [hstep, runScoped_assertOnly later [0] h]

/-- C2 witness: a utils session whose unpack failed and whose COLOR call lost
its transport still closes exactly once, and a test body whose second ASSERT
fails still frees its parsed URI exactly once. -/
theorem C2_witness :
    utilsSessionCloseCalls true
      [UtilsOp.openFileOp true 0, UtilsOp.unpackOp true 5,
        UtilsOp.colorOp false 0] = 1 ∧
    runScoped (TestAction.acquire 0 ::
      [TestAction.assertStep true, TestAction.assertStep false]) [] = [0] :=
  ⟨C2_amended.1 _, C2_amended.2 _ (by decide)⟩

/-- C9: walking a remote chain by repeated rebind-and-transfer visits exactly
the chain's nodes in order: the null-terminated loop of TestPath, given fuel
equal to the chain length, returns the node list (it stops exactly at the null
address), and the count-driven loop of TestQueryElements, run for the chain
length, returns the same node list and leaves the handle rebound to the null
address. -/
theorem C9_theorem :
    (∀ (heap : Nat → Option SegNode) (a : Nat) (ns : List SegNode),
      IsChain heap a ns → walkChain heap ns.length a = some ns) ∧
    (∀ (heap : Nat → Option SegNode) (a : Nat) (ns : List SegNode),
      IsChain heap a ns → walkCount heap ns.length a = some (ns, 0)) := by
  constructor
  · intro heap a ns h
    induction h with
    | nil => rfl
    | cons ha hn htail ih =>
      rename_i a n ns
      obtain ⟨b, rfl⟩ : ∃ b, a = b + 1 := ⟨a - 1, by omega⟩
      simp [walkChain, hn, ih]
  · intro heap a ns h
    induction h with
    | nil => rfl
    | cons ha hn htail ih =>
      simp [walkCount, hn, ih]

/-- C9 witness: the two-node chain at address 5 of the concrete heap is
traversed in order by both loops, ending at the null address. -/
theorem C9_witness :
    walkChain heapTwo 2 5 =
      some [SegNode.mk "google" 9, SegNode.mk "sandboxed-api" 0] ∧
    walkCount heapTwo 2 5 =
      some ([SegNode.mk "google" 9, SegNode.mk "sandboxed-api" 0], 0) := by
  have hc : IsChain heapTwo 5
      [SegNode.mk "google" 9, SegNode.mk "sandboxed-api" 0] :=
    IsChain.cons (by decide) rfl (IsChain.cons (by decide) rfl IsChain.nil)
  exact ⟨C9_theorem.1 heapTwo 5 _ hc, C9_theorem.2 heapTwo 5 _ hc⟩

/-- C6 counterexample: the row for "http://8.8.8.8/" (index 13 of TestData) has
both its textual host and its IPv4 payload populated (TestHostText expects the
non-empty host text "8.8.8.8" and TestHostIP expects the non-empty rendering
"8.8.8.8"), so two of the three host fields are populated — neither "exactly
one" nor "at most one" of the three holds for every parsed URI. -/
theorem C6_counterexample :
    (testData.get ⟨13, by decide⟩).test = "http://8.8.8.8/" ∧
    hostTextPopulated (testData.get ⟨13, by decide⟩) = true ∧
    (hostIp4 (testData.get ⟨13, by decide⟩).test).isSome = true ∧
    populatedCount (testData.get ⟨13, by decide⟩) = 2 :=
  ⟨rfl, rfl, rfl, rfl⟩

/-- C6 amended: for every row of the test table at most one of the IPv4 and
IPv6 payloads is populated, an IP payload is populated exactly when TestHostIP
expects a non-empty rendered IP, an IP payload only occurs together with a
populated textual host (and URIs without an authority populate none of the
three), and for "http://8.8.8.8/" the IPv4 payload renders as "8.8.8.8". -/
theorem C6_amended :
    (testData.all (fun tv =>
      (!((hostIp4 tv.test).isSome && (hostIp6 tv.test).isSome)) &&
      (((hostIp4 tv.test).isSome || (hostIp6 tv.test).isSome) == ipPopulated tv) &&
      (!(ipPopulated tv) || hostTextPopulated tv))) = true ∧
    hostIp4 "http://8.8.8.8/" = some (8, 8, 8, 8) ∧
    renderIp4 (8, 8, 8, 8) = "8.8.8.8" :=
  ⟨by decide, rfl, rfl⟩

/-- C7: the normalization outcomes recorded by the src test table map
"http://a/b/c/../d;p?q" to "http://a/b/d;p?q" and "http://[vA.123456]/" to
"http://[va.123456]/"; dot-segment removal over that row's recorded path
segments produces the normalized path, and byte-wise ASCII case-folding maps
the mixed-case host to its lower-cased form. -/
theorem C7_theorem :
    uriNormalize "http://a/b/c/../d;p?q" = some "http://a/b/d;p?q" ∧
    uriNormalize "http://[vA.123456]/" = some "http://[va.123456]/" ∧
    removeDotSegments ["b", "c", "..", "d;p"] = ["b", "d;p"] ∧
    (strBytes "vA.123456").map asciiLower = strBytes "va.123456" :=
  ⟨by decide, by decide, rfl, by decide⟩

/-- Support: a hex digit produced by hexDigit decodes back to its value. -/
theorem hexRoundTrip (n : Nat) (h : n < 16) : fromHex (hexDigit n) = some n := by
  by_cases h10 : n < 10
  · have hd : hexDigit n = 48 + n := if_pos h10
    rw [hd]
    unfold fromHex
    rw [if_pos ⟨by omega, by omega⟩]
    congr 1
    omega
  · have hd : hexDigit n = 55 + n := if_neg h10
    rw [hd]
    unfold fromHex
    rw [if_neg (by omega), if_pos ⟨by omega, by omega⟩]
    congr 1
    omega

/-- Support: unreserved bytes are distinct from '%', '+' and space. -/
theorem isUnres_ne (b : Nat) (h : isUnres b = true) :
    b ≠ 37 ∧ b ≠ 43 ∧ b ≠ 32 := by
  simp only [isUnres, decide_eq_true_eq] at h
  omega

/-- Support: percent-decoding (with '+' decoded to space) recovers any byte
sequence from its escaped form. -/
theorem escape_roundtrip (l : List Nat) (h : ∀ b ∈ l, b < 256) :
    unescapeBytes (escapeBytes l) = some l := by
  induction l with
  | nil => rfl
  | cons b rest ih =>
    have hb : b < 256 := h b (by simp)
    have hrest : unescapeBytes (escapeBytes rest) = some rest :=
      ih (fun x hx => h x (by simp [hx]))
    by_cases h32 : b = 32
    · subst h32
      simp only [escapeBytes, List.flatMap_cons, escapeByte, if_pos rfl,
        List.singleton_append] at hrest ⊢
      simp [unescapeBytes, hrest]
    · cases hu : isUnres b with
      | true =>
        obtain ⟨hne37, hne43, _⟩ := isUnres_ne b hu
        simp only [escapeBytes, List.flatMap_cons, escapeByte, h32, hu,
          if_neg, if_true, if_false, ite_false, List.singleton_append] at hrest ⊢
        simp [unescapeBytes, hrest, hne37, hne43, h32, hu]
      | false =>
        have e1 : fromHex (hexDigit (b / 16 % 16)) = some (b / 16 % 16) :=
          hexRoundTrip _ (by omega)
        have e2 : fromHex (hexDigit (b % 16)) = some (b % 16) :=
          hexRoundTrip _ (by omega)
        have eb : 16 * (b / 16 % 16) + b % 16 = b := by omega
        simp only [escapeBytes, List.flatMap_cons, escapeByte, h32, hu,
          ite_false, List.cons_append, List.nil_append] at hrest ⊢
        simp [unescapeBytes, unescapePct, e1, e2, hrest, eb]

/-- Support: the escaping model agrees with every escaped literal the src test
table records (TestUriEscaped escapes the canonical uri string of each row). -/
theorem escape_matches_testData :
    (testData.all fun tv =>
      escapeBytes (strBytes tv.uri) == strBytes tv.uriescaped) = true := by
  decide

/-- C8: escaping followed by percent-decoding recovers the original byte
sequence for every byte sequence, and escaping "http://www.example.com/"
yields exactly "http%3A%2F%2Fwww.example.com%2F". -/
theorem C8_theorem :
    (∀ l : List Nat, (∀ b ∈ l, b < 256) → unescapeBytes (escapeBytes l) = some l) ∧
    escapeBytes (strBytes "http://www.example.com/") =
      strBytes "http%3A%2F%2Fwww.example.com%2F" :=
  ⟨fun l h => escape_roundtrip l h, by decide⟩

/-- C8 witness: the round trip at the concrete literal input. -/
theorem C8_witness :
    unescapeBytes (escapeBytes (strBytes "http://www.example.com/")) =
      some (strBytes "http://www.example.com/") :=
  C8_theorem.1 (strBytes "http://www.example.com/") (by decide)

end USpec
